import Mathlib

/-!
Shallow embedding of the client-side authentication and asset-upload glue of
the Certifreedev repository.

The TypeScript code consists of asynchronous wrappers around an external
BaaS SDK (auth, database, storage), browser `localStorage`, and a CAPTCHA
browser API.  Each wrapper is embedded as a pure Lean function from an
*environment* — an oracle giving the outcome of each external call the
wrapper can make — to the returned result paired with a trace of observable
effects (SDK calls, storage accesses, fixed delays).  Control flow, error
strings and the order of effects follow the source line by line.
-/

namespace Certifree

/-- Outcome of one external SDK call: a value, an error result
(the SDK resolves with a non-null `error` field), or a thrown exception
(the promise rejects and the wrapper's `catch` receives `err.message`). -/
inductive SdkOutcome (α : Type) where
  | ok (val : α)
  | err (message : String)
  | thrown (message : String)
deriving DecidableEq, Repr

/-- Observable effects of one wrapper invocation, in order. -/
inductive Effect where
  | sdkCall (name : String)
  | storageUpload (path : String)
  | storageGet (key : String)
  | storageSet (key value : String)
  | storageRemove (key : String)
  | wait (ms : Nat)
deriving DecidableEq, Repr

/-- Browser `localStorage` contents at the start of an invocation. -/
def Storage : Type := String → Option String

/-- `export type AuthMode = 'login' | 'signup'`. -/
inductive AuthMode where
  | login
  | signup
deriving DecidableEq, Repr

/-- The string stored in `localStorage` for a mode. -/
def AuthMode.asString : AuthMode → String
  | .login => "login"
  | .signup => "signup"

/-- A row of the `profiles` table as selected by `checkProfileExists`
(`select('id, email, full_name')`). -/
structure Profile where
  id : String
  email : String
  full_name : String
deriving DecidableEq, Repr

/-- `session.user` as used by the code (`id`, `email`). -/
structure User where
  id : String
  email : Option String
deriving DecidableEq, Repr

/-- A session established by the external auth service. -/
structure Session where
  user : User
deriving DecidableEq, Repr

/-- `{ user, session }` payload returned by `signUp` / `signInWithPassword`. -/
structure TokenData where
  user : Option User
  session : Option Session
deriving DecidableEq, Repr

/-- The `data` payload carried in a successful `AuthResult`. -/
inductive AuthData where
  | ofSession (s : Session)
  | ofOAuth (url : Option String)
  | ofTokenData (d : TokenData)
deriving DecidableEq, Repr

/-- interface AuthResult { success; error?; requiresVerification?; data? } -/
structure AuthResult where
  success : Bool
  error : Option String := none
  requiresVerification : Option Bool := none
  data : Option AuthData := none
deriving DecidableEq, Repr

/-- interface ProfileCheckResult { exists; profile?; error? } -/
structure ProfileCheckResult where
  exists_ : Bool
  profile : Option Profile := none
  error : Option String := none
deriving DecidableEq, Repr

/-- `checkProfileExists`: one `profiles` select with `.maybeSingle()`.
An SDK error (and likewise a thrown exception, caught by the internal
`try/catch`) yields `exists: false` with the message; otherwise `exists`
is the non-nullness of `data`.  The query itself is one external call. -/
def checkProfileExists (q : SdkOutcome (Option Profile)) :
    ProfileCheckResult × List Effect :=
  match q with
  | .ok d => ({ exists_ := d.isSome, profile := d }, [.sdkCall "profiles.select"])
  | .err m => ({ exists_ := false, error := some m }, [.sdkCall "profiles.select"])
  | .thrown m => ({ exists_ := false, error := some m }, [.sdkCall "profiles.select"])

/-- Environment of `handleGoogleOAuth`: the outcome of
`supabase.auth.signInWithOAuth` (its `data?.url` on success). -/
structure GoogleOAuthEnv where
  signInWithOAuth : SdkOutcome (Option String)
deriving DecidableEq, Repr

/-- `handleGoogleOAuth`: store `oauth_mode`, start the OAuth redirect,
remove the flag again on failure (both on an SDK error and in `catch`). -/
def handleGoogleOAuth (mode : AuthMode) (env : GoogleOAuthEnv) :
    AuthResult × List Effect :=
  match env.signInWithOAuth with
  | .ok url =>
      ({ success := true, data := some (.ofOAuth url) },
       [.storageSet "oauth_mode" mode.asString, .sdkCall "auth.signInWithOAuth"])
  | .err m =>
      ({ success := false, error := some m },
       [.storageSet "oauth_mode" mode.asString, .sdkCall "auth.signInWithOAuth",
        .storageRemove "oauth_mode"])
  | .thrown m =>
      ({ success := false, error := some m },
       [.storageSet "oauth_mode" mode.asString, .sdkCall "auth.signInWithOAuth",
        .storageRemove "oauth_mode"])

/-- Environment of `handleOAuthCallback`: the session lookup, the initial
storage contents, the outcomes of the (at most two) `profiles` queries in
program order, and the outcome of the ignored `signOut` call. -/
structure CallbackEnv where
  getSession : SdkOutcome (Option Session)
  storage : Storage
  check1 : SdkOutcome (Option Profile)
  check2 : SdkOutcome (Option Profile)
  signOut : SdkOutcome Unit

/-- `localStorage.getItem('oauth_mode') as AuthMode || 'login'`:
a missing key and the empty string (both falsy in JS) default to
`'login'`; any other stored string is used unchecked. -/
def oauthModeOf (storage : Storage) : String :=
  match storage "oauth_mode" with
  | none => "login"
  | some s => if s = "" then "login" else s

/-- `handleOAuthCallback`, line by line: session lookup and its two error
exits; read and clear the `oauth_mode` flag; one profile check; then the
`signup` branch (duplicate-profile exit, else a single 1000 ms delay and a
single re-check), the `login` branch (sign-out and exit when no profile
exists), and the unknown-mode exit.  The `catch` clears the flag and
forwards the thrown message. -/
def handleOAuthCallback (env : CallbackEnv) : AuthResult × List Effect :=
  match env.getSession with
  | .err m => ({ success := false, error := some m }, [.sdkCall "auth.getSession"])
  | .thrown m =>
      ({ success := false, error := some m },
       [.sdkCall "auth.getSession", .storageRemove "oauth_mode"])
  | .ok none =>
      ({ success := false, error := some "No session found. Please try again." },
       [.sdkCall "auth.getSession"])
  | .ok (some session) =>
      let authMode := oauthModeOf env.storage
      let pre : List Effect :=
        [.sdkCall "auth.getSession", .storageGet "oauth_mode",
         .storageRemove "oauth_mode"]
      let pc1 := checkProfileExists env.check1
      if authMode = "signup" then
        if pc1.1.exists_ then
          ({ success := false,
             error := some "An account with this email already exists. Please log in instead." },
           pre ++ pc1.2)
        else
          let pc2 := checkProfileExists env.check2
          if pc2.1.exists_ then
            ({ success := true, data := some (.ofSession session) },
             pre ++ pc1.2 ++ [.wait 1000] ++ pc2.2)
          else
            ({ success := false,
               error := some "Failed to create user profile. Please try again." },
             pre ++ pc1.2 ++ [.wait 1000] ++ pc2.2)
      else if authMode = "login" then
        if pc1.1.exists_ then
          ({ success := true, data := some (.ofSession session) }, pre ++ pc1.2)
        else
          match env.signOut with
          | .thrown m =>
              ({ success := false, error := some m },
               pre ++ pc1.2 ++ [.sdkCall "auth.signOut", .storageRemove "oauth_mode"])
          | _ =>
              ({ success := false,
                 error := some "No account found with this email. Please sign up first." },
               pre ++ pc1.2 ++ [.sdkCall "auth.signOut"])
      else
        ({ success := false, error := some "Invalid authentication mode" },
         pre ++ pc1.2)

/-- `handleEmailLogin`: one `signInWithPassword` call; errors (and thrown
exceptions, via `catch`) are forwarded as the result's error string. -/
def handleEmailLogin (email password : String)
    (signInWithPassword : SdkOutcome TokenData) : AuthResult × List Effect :=
  match signInWithPassword with
  | .ok d =>
      ({ success := true, data := some (.ofTokenData d) },
       [.sdkCall "auth.signInWithPassword"])
  | .err m =>
      ({ success := false, error := some m }, [.sdkCall "auth.signInWithPassword"])
  | .thrown m =>
      ({ success := false, error := some m }, [.sdkCall "auth.signInWithPassword"])

/-- Environment of `handleEmailSignup`: the `profiles` query outcome and
the `auth.signUp` outcome. -/
structure SignupEnv where
  check : SdkOutcome (Option Profile)
  signUp : SdkOutcome TokenData

/-- `handleEmailSignup`: a profile check first (duplicate emails are
rejected before any `signUp` call); then one `signUp` call whose missing
session marks the account as requiring e-mail verification. -/
def handleEmailSignup (email password fullName : String) (env : SignupEnv) :
    AuthResult × List Effect :=
  let pc := checkProfileExists env.check
  if pc.1.exists_ then
    ({ success := false,
       error := some "An account with this email already exists. Please log in instead." },
     pc.2)
  else
    match env.signUp with
    | .err m => ({ success := false, error := some m }, pc.2 ++ [.sdkCall "auth.signUp"])
    | .thrown m => ({ success := false, error := some m }, pc.2 ++ [.sdkCall "auth.signUp"])
    | .ok d =>
        match d.session with
        | some _ =>
            ({ success := true, data := some (.ofTokenData d) },
             pc.2 ++ [.sdkCall "auth.signUp"])
        | none =>
            ({ success := true, requiresVerification := some true,
               data := some (.ofTokenData d) },
             pc.2 ++ [.sdkCall "auth.signUp"])

/-- `handleSignOut`: one `auth.signOut` call; the `oauth_mode` flag is
removed only after a successful sign-out. -/
def handleSignOut (signOut : SdkOutcome Unit) : AuthResult × List Effect :=
  match signOut with
  | .ok _ =>
      ({ success := true }, [.sdkCall "auth.signOut", .storageRemove "oauth_mode"])
  | .err m => ({ success := false, error := some m }, [.sdkCall "auth.signOut"])
  | .thrown m => ({ success := false, error := some m }, [.sdkCall "auth.signOut"])

/-- `resendVerificationEmail`: one `auth.resend` call. -/
def resendVerificationEmail (email : String) (resend : SdkOutcome Unit) :
    AuthResult × List Effect :=
  match resend with
  | .ok _ => ({ success := true }, [.sdkCall "auth.resend"])
  | .err m => ({ success := false, error := some m }, [.sdkCall "auth.resend"])
  | .thrown m => ({ success := false, error := some m }, [.sdkCall "auth.resend"])

/-! ### Environment validation (`src/config/environment.ts`) -/

/-- The `import.meta.env` fields the validator reads.  A Vite env var is
either absent (`undefined`) or a string, possibly empty. -/
structure ImportMetaEnv where
  VITE_SUPABASE_URL : Option String
  VITE_SUPABASE_ANON_KEY : Option String
  VITE_FORMSPREE_ENDPOINT : Option String
  VITE_GOOGLE_CLIENT_ID : Option String
  VITE_GOOGLE_CLIENT_SECRET : Option String
  PROD : Bool
deriving DecidableEq, Repr

/-- JS falsiness of an env value: `undefined` and the empty string are
falsy, every other string is truthy. -/
def falsyEnv : Option String → Bool
  | none => true
  | some s => s = ""

/-- `supabaseUrl.startsWith('https://')` applied to an optional value
(only consulted under a truthiness guard in the source); the prefix test
is on the character sequence. -/
def urlStartsWithHttps : Option String → Bool
  | none => false
  | some s => "https://".data.isPrefixOf s.data

/-- `supabaseUrl.includes('localhost')` (substring test). -/
def includesLocalhost : Option String → Bool
  | none => false
  | some s => decide (List.IsInfix ("localhost".data) s.data)

/-- interface EnvConfig (field values are the raw env values). -/
structure EnvConfig where
  supabaseUrl : Option String
  supabaseAnonKey : Option String
  formspreeEndpoint : Option String
  isProduction : Bool
deriving DecidableEq, Repr

/-- interface ValidationResult { valid; errors; warnings; config? } -/
structure ValidationResult where
  valid : Bool
  errors : List String
  warnings : List String
  config : Option EnvConfig := none
deriving DecidableEq, Repr

/-- `validateEnvironment`, line by line: three error pushes (missing URL,
missing key, non-`https://` URL), two warning pushes (missing Google
credentials, localhost URL in production), `valid = errors.length === 0`,
and `config` attached exactly when valid. -/
def validateEnvironment (env : ImportMetaEnv) : ValidationResult :=
  let errors : List String :=
    (if falsyEnv env.VITE_SUPABASE_URL then
      ["VITE_SUPABASE_URL is not set in environment variables"] else [])
    ++ (if falsyEnv env.VITE_SUPABASE_ANON_KEY then
      ["VITE_SUPABASE_ANON_KEY is not set in environment variables"] else [])
    ++ (if !falsyEnv env.VITE_SUPABASE_URL
          && !urlStartsWithHttps env.VITE_SUPABASE_URL then
      ["VITE_SUPABASE_URL must start with https://"] else [])
  let warnings : List String :=
    (if falsyEnv env.VITE_GOOGLE_CLIENT_ID
        || falsyEnv env.VITE_GOOGLE_CLIENT_SECRET then
      ["Google OAuth credentials not set (optional, configured in Supabase Dashboard)"]
     else [])
    ++ (if env.PROD && !falsyEnv env.VITE_SUPABASE_URL
          && includesLocalhost env.VITE_SUPABASE_URL then
      ["Using localhost URL in production environment"] else [])
  let valid : Bool := errors.length == 0
  { valid := valid
    errors := errors
    warnings := warnings
    config :=
      if valid then
        some { supabaseUrl := env.VITE_SUPABASE_URL
               supabaseAnonKey := env.VITE_SUPABASE_ANON_KEY
               formspreeEndpoint := env.VITE_FORMSPREE_ENDPOINT
               isProduction := env.PROD }
      else none }

/-! ### Asset upload (`src/lib/storage.ts`) -/

/-- The character class `[a-zA-Z0-9_.-]` of the sanitising regex. -/
def allowedChar (c : Char) : Bool :=
  (('a' ≤ c && c ≤ 'z') || ('A' ≤ c && c ≤ 'Z') || ('0' ≤ c && c ≤ '9')
    || c = '_' || c = '.' || c = '-')

/-- `file.name.replace(/[^a-zA-Z0-9_.-]/g, "_")`: every character outside
the class is replaced by an underscore. -/
def sanitizeFileName (name : String) : String :=
  String.mk (name.data.map fun c => if allowedChar c then c else '_')

/-- The file argument of `uploadCertificationAsset` (`name`, `type`). -/
structure UploadFile where
  name : String
  type : String
deriving DecidableEq, Repr

/-- Outcome of `supabase.storage.from(BUCKET).upload`: the stored
`data.path` or a non-null `error`. -/
inductive StorageOutcome where
  | ok (path : String)
  | err (message : String)
deriving DecidableEq, Repr

/-- Environment of `uploadCertificationAsset`: the upload outcome and the
`getPublicUrl` mapping (which always yields a URL). -/
structure UploadEnv where
  uploadResult : StorageOutcome
  publicUrlFor : String → String

/-- `{ url, error }` as returned by `uploadCertificationAsset`
(the error object abstracted to its message). -/
structure UploadResult where
  url : Option String
  error : Option String
deriving DecidableEq, Repr

/-- `uploadCertificationAsset`: build
`` `${certificationId}/${timestamp}_${sanitized}` `` (with
`timestamp = Date.now()` supplied as a parameter), upload to it, and on
success resolve the public URL of the path the SDK reports. -/
def uploadCertificationAsset (file : UploadFile) (certificationId : String)
    (timestamp : Nat) (env : UploadEnv) : UploadResult × List Effect :=
  let sanitized := sanitizeFileName file.name
  let path := certificationId ++ "/" ++ toString timestamp ++ "_" ++ sanitized
  match env.uploadResult with
  | .err m => ({ url := none, error := some m }, [.storageUpload path])
  | .ok p =>
      ({ url := some (env.publicUrlFor p), error := none },
       [.storageUpload path, .sdkCall "storage.getPublicUrl"])

/-! ### reCAPTCHA hook (`useRecaptcha`) -/

/-- Outcome of `window.grecaptcha.execute`: a token, a rejection carrying
an `Error`, or a rejection with a non-`Error` value. -/
inductive ExecOutcome where
  | ok (token : String)
  | rejected (message : String)
  | rejectedNonError
deriving DecidableEq, Repr

/-- State visible to `executeRecaptcha`: the hook's `loaded` flag, the
presence of `window.grecaptcha`, and the execute outcome. -/
structure RecaptchaEnv where
  loaded : Bool
  grecaptchaAvailable : Bool
  execute : ExecOutcome
deriving DecidableEq, Repr

/-- `executeRecaptcha`: guard on `loaded`, guard on `window.grecaptcha`,
then one `grecaptcha.execute` call whose rejection is re-thrown (a
non-`Error` rejection becomes `'Failed to execute reCAPTCHA'`).  A thrown
error is `Except.error`; the trace records whether `execute` ran. -/
def executeRecaptcha (siteKey action : String) (env : RecaptchaEnv) :
    Except String String × List Effect :=
  if !env.loaded then (.error "reCAPTCHA not loaded yet", [])
  else if !env.grecaptchaAvailable then (.error "reCAPTCHA not available", [])
  else
    match env.execute with
    | .ok token => (.ok token, [.sdkCall "grecaptcha.execute"])
    | .rejected m => (.error m, [.sdkCall "grecaptcha.execute"])
    | .rejectedNonError =>
        (.error "Failed to execute reCAPTCHA", [.sdkCall "grecaptcha.execute"])

/-! ### Helper functions over traces -/

/-- Is an effect an external SDK call (auth/database/storage)? -/
def Effect.isExternalCall : Effect → Bool
  | .sdkCall _ => true
  | .storageUpload _ => true
  | _ => false

/-- Number of external SDK calls in a trace. -/
def externalCalls (t : List Effect) : Nat :=
  (t.filter Effect.isExternalCall).length

/-- The browser-storage keys an invocation reads or writes, in order. -/
def storageKeys (t : List Effect) : List String :=
  t.filterMap fun e =>
    match e with
    | .storageGet k => some k
    | .storageSet k _ => some k
    | .storageRemove k => some k
    | _ => none

/-- Is an effect a fixed delay? -/
def Effect.isWait : Effect → Bool
  | .wait _ => true
  | _ => false

/-! ### Shared helper lemmas -/

/-- A profile check always performs exactly the one `profiles` select. -/
theorem checkProfileExists_trace (q : SdkOutcome (Option Profile)) :
    (checkProfileExists q).2 = [.sdkCall "profiles.select"] := by
  cases q <;> rfl

theorem externalCalls_append (a b : List Effect) :
    externalCalls (a ++ b) = externalCalls a + externalCalls b := by
  simp [externalCalls, List.filter_append]

/-! ### Claim theorems -/

/-- Claim C1: in `handleOAuthCallback`, when the mode is `signup` and no
profile exists at the first check, the function performs exactly one fixed
1000 ms wait followed by exactly one re-check of profile existence; if the
profile still does not exist it returns `success = false` with error
`'Failed to create user profile. Please try again.'`, and if it exists it
returns `success = true` with the session.  The full effect trace shows no
further retries. -/
theorem handleOAuthCallback_signup_polls_once (env : CallbackEnv) (s : Session)
    (hs : env.getSession = .ok (some s))
    (hm : oauthModeOf env.storage = "signup")
    (h1 : (checkProfileExists env.check1).1.exists_ = false) :
    (handleOAuthCallback env).2 =
      [.sdkCall "auth.getSession", .storageGet "oauth_mode",
       .storageRemove "oauth_mode", .sdkCall "profiles.select",
       .wait 1000, .sdkCall "profiles.select"]
    ∧ (handleOAuthCallback env).2.filter Effect.isWait = [.wait 1000]
    ∧ (handleOAuthCallback env).1 =
        (if (checkProfileExists env.check2).1.exists_ then
          { success := true, data := some (.ofSession s) }
        else
          { success := false,
            error := some "Failed to create user profile. Please try again." }) := by
  have ht1 := checkProfileExists_trace env.check1
  have ht2 := checkProfileExists_trace env.check2
  unfold handleOAuthCallback
  rw [hs]
  cases hex : (checkProfileExists env.check2).1.exists_ <;>
    simp [hm, h1, ht1, ht2, hex, Effect.isWait]

/-- Witness for C1 at a concrete environment (signup mode, first check
empty, second check still empty). -/
theorem handleOAuthCallback_signup_polls_once_witness :
    (handleOAuthCallback
        { getSession := .ok (some { user := { id := "u1", email := some "a@example.com" } }),
          storage := fun k => if k = "oauth_mode" then some "signup" else none,
          check1 := .ok none, check2 := .ok none, signOut := .ok () }).2 =
      [.sdkCall "auth.getSession", .storageGet "oauth_mode",
       .storageRemove "oauth_mode", .sdkCall "profiles.select",
       .wait 1000, .sdkCall "profiles.select"]
    ∧ (handleOAuthCallback
        { getSession := .ok (some { user := { id := "u1", email := some "a@example.com" } }),
          storage := fun k => if k = "oauth_mode" then some "signup" else none,
          check1 := .ok none, check2 := .ok none, signOut := .ok () }).2.filter
        Effect.isWait = [.wait 1000]
    ∧ (handleOAuthCallback
        { getSession := .ok (some { user := { id := "u1", email := some "a@example.com" } }),
          storage := fun k => if k = "oauth_mode" then some "signup" else none,
          check1 := .ok none, check2 := .ok none, signOut := .ok () }).1 =
        (if (checkProfileExists (SdkOutcome.ok none)).1.exists_ then
          { success := true,
            data := some (.ofSession { user := { id := "u1", email := some "a@example.com" } }) }
        else
          { success := false,
            error := some "Failed to create user profile. Please try again." }) :=
  handleOAuthCallback_signup_polls_once _ _ rfl rfl rfl

/-- Claim C4: in `login` mode with an established session whose email has
no existing profile, `handleOAuthCallback` calls the external sign-out and
returns `success = false` with error exactly
`'No account found with this email. Please sign up first.'`. -/
theorem handleOAuthCallback_login_no_profile (env : CallbackEnv) (s : Session)
    (hs : env.getSession = .ok (some s))
    (hm : oauthModeOf env.storage = "login")
    (h1 : (checkProfileExists env.check1).1.exists_ = false)
    (hso : ∀ m, env.signOut ≠ SdkOutcome.thrown m) :
    handleOAuthCallback env =
      ({ success := false,
         error := some "No account found with this email. Please sign up first." },
       [.sdkCall "auth.getSession", .storageGet "oauth_mode",
        .storageRemove "oauth_mode", .sdkCall "profiles.select",
        .sdkCall "auth.signOut"])
    ∧ Effect.sdkCall "auth.signOut" ∈ (handleOAuthCallback env).2 := by
  have ht1 := checkProfileExists_trace env.check1
  have hres : handleOAuthCallback env =
      ({ success := false,
         error := some "No account found with this email. Please sign up first." },
       [.sdkCall "auth.getSession", .storageGet "oauth_mode",
        .storageRemove "oauth_mode", .sdkCall "profiles.select",
        .sdkCall "auth.signOut"]) := by
    unfold handleOAuthCallback
    rw [hs]
    cases hso' : env.signOut with
    | thrown m => exact absurd hso' (hso m)
    | ok u => simp [hm, h1, ht1]
    | err m => simp [hm, h1, ht1]
  refine ⟨hres, ?_⟩
  rw [hres]
  simp

/-- Witness for C4 at a concrete environment (login mode, no profile,
well-behaved external sign-out). -/
theorem handleOAuthCallback_login_no_profile_witness :
    handleOAuthCallback
        { getSession := .ok (some { user := { id := "u2", email := some "b@example.com" } }),
          storage := fun _ => none,
          check1 := .ok none, check2 := .ok none, signOut := .ok () } =
      ({ success := false,
         error := some "No account found with this email. Please sign up first." },
       [.sdkCall "auth.getSession", .storageGet "oauth_mode",
        .storageRemove "oauth_mode", .sdkCall "profiles.select",
        .sdkCall "auth.signOut"])
    ∧ Effect.sdkCall "auth.signOut" ∈
        (handleOAuthCallback
          { getSession := .ok (some { user := { id := "u2", email := some "b@example.com" } }),
            storage := fun _ => none,
            check1 := .ok none, check2 := .ok none, signOut := .ok () }).2 :=
  handleOAuthCallback_login_no_profile _ _ rfl rfl rfl (fun m h => by cases h)

/-- Claim C5: a sign-up attempt for an email whose profile already exists
is rejected with `'An account with this email already exists. Please log
in instead.'` — in `handleEmailSignup` before any `signUp` call (the trace
is only the profile select), and in `handleOAuthCallback` in `signup`
mode. -/
theorem signup_existing_profile_rejected :
    (∀ email password fullName env,
        (checkProfileExists env.check).1.exists_ = true →
        handleEmailSignup email password fullName env =
          ({ success := false,
             error := some "An account with this email already exists. Please log in instead." },
           [.sdkCall "profiles.select"]))
    ∧ (∀ env s, env.getSession = .ok (some s) →
        oauthModeOf env.storage = "signup" →
        (checkProfileExists env.check1).1.exists_ = true →
        handleOAuthCallback env =
          ({ success := false,
             error := some "An account with this email already exists. Please log in instead." },
           [.sdkCall "auth.getSession", .storageGet "oauth_mode",
            .storageRemove "oauth_mode", .sdkCall "profiles.select"])) := by
  constructor
  · intro email password fullName env h
    have ht := checkProfileExists_trace env.check
    simp [handleEmailSignup, h, ht]
  · intro env s hs hm h1
    have ht := checkProfileExists_trace env.check1
    unfold handleOAuthCallback
    rw [hs]
    simp [hm, h1, ht]

/-- Witness for C5 at concrete environments where the profile already
exists. -/
theorem signup_existing_profile_rejected_witness :
    handleEmailSignup "a@example.com" "pw" "Ann"
        { check := .ok (some { id := "p1", email := "a@example.com", full_name := "Ann" }),
          signUp := .ok { user := none, session := none } } =
      ({ success := false,
         error := some "An account with this email already exists. Please log in instead." },
       [.sdkCall "profiles.select"])
    ∧ handleOAuthCallback
        { getSession := .ok (some { user := { id := "u3", email := some "a@example.com" } }),
          storage := fun k => if k = "oauth_mode" then some "signup" else none,
          check1 := .ok (some { id := "p1", email := "a@example.com", full_name := "Ann" }),
          check2 := .ok none, signOut := .ok () } =
      ({ success := false,
         error := some "An account with this email already exists. Please log in instead." },
       [.sdkCall "auth.getSession", .storageGet "oauth_mode",
        .storageRemove "oauth_mode", .sdkCall "profiles.select"]) :=
  ⟨signup_existing_profile_rejected.1 "a@example.com" "pw" "Ann" _ rfl,
   signup_existing_profile_rejected.2 _ _ rfl rfl rfl⟩

/-- Claim C2 counterexample: `handleEmailSignup` performs two external
calls in one invocation (the `profiles` select and `auth.signUp`), so not
every exported operation makes at most one external call. -/
theorem handleEmailSignup_two_external_calls :
    1 < externalCalls (handleEmailSignup "user@example.com" "pw" "User"
        { check := .ok none, signUp := .ok { user := none, session := none } }).2 := by
  decide

/-- Claim C2 (amended): `handleEmailLogin`, `handleGoogleOAuth`,
`handleSignOut` and `resendVerificationEmail` each perform exactly one
external SDK call per invocation; `handleEmailSignup` performs at most two
and `handleOAuthCallback` between one and four, in every environment. -/
theorem auth_ops_external_call_counts :
    (∀ email password sdk,
      externalCalls (handleEmailLogin email password sdk).2 = 1)
    ∧ (∀ mode env, externalCalls (handleGoogleOAuth mode env).2 = 1)
    ∧ (∀ sdk, externalCalls (handleSignOut sdk).2 = 1)
    ∧ (∀ email sdk, externalCalls (resendVerificationEmail email sdk).2 = 1)
    ∧ (∀ email password fullName env,
        externalCalls (handleEmailSignup email password fullName env).2 ≤ 2)
    ∧ (∀ env, 1 ≤ externalCalls (handleOAuthCallback env).2
        ∧ externalCalls (handleOAuthCallback env).2 ≤ 4) := by
  refine ⟨?_, ?_, ?_, ?_, ?_, ?_⟩
  · intro email password sdk
    cases sdk <;> rfl
  · intro mode env
    rcases env with ⟨o⟩
    cases o <;> rfl
  · intro sdk
    cases sdk <;> rfl
  · intro email sdk
    cases sdk <;> rfl
  · intro email password fullName env
    rcases env with ⟨c, su⟩
    unfold handleEmailSignup
    dsimp only
    split
    · rw [checkProfileExists_trace c]
      simp [externalCalls, Effect.isExternalCall]
    · split
      · rw [checkProfileExists_trace c]
        simp [externalCalls, Effect.isExternalCall]
      · rw [checkProfileExists_trace c]
        simp [externalCalls, Effect.isExternalCall]
      · split <;>
          (rw [checkProfileExists_trace c]
           simp [externalCalls, Effect.isExternalCall])
  · intro env
    rcases env with ⟨gs, st, c1, c2, so⟩
    cases gs with
    | err m => constructor <;> simp [handleOAuthCallback, externalCalls, Effect.isExternalCall]
    | thrown m => constructor <;> simp [handleOAuthCallback, externalCalls, Effect.isExternalCall]
    | ok s =>
      cases s with
      | none => constructor <;> simp [handleOAuthCallback, externalCalls, Effect.isExternalCall]
      | some s =>
        unfold handleOAuthCallback
        dsimp only
        split
        · split
          · rw [checkProfileExists_trace c1]
            simp [externalCalls, Effect.isExternalCall]
          · rw [checkProfileExists_trace c1, checkProfileExists_trace c2]
            split <;> simp [externalCalls, Effect.isExternalCall]
        · split
          · split
            · rw [checkProfileExists_trace c1]
              simp [externalCalls, Effect.isExternalCall]
            · split <;>
                (rw [checkProfileExists_trace c1]
                 simp [externalCalls, Effect.isExternalCall])
          · rw [checkProfileExists_trace c1]
            simp [externalCalls, Effect.isExternalCall]

/-- Claim C3 counterexample: when the `profiles` select inside
`handleEmailSignup` yields an SDK error, that error is not forwarded — the
check is treated as "no profile" and the operation can even succeed. -/
theorem handleEmailSignup_swallows_profile_check_error :
    (handleEmailSignup "user@example.com" "pw" "User"
        { check := .err "database unavailable",
          signUp := .ok
            { user := some { id := "u1", email := some "user@example.com" },
              session := some { user := { id := "u1", email := some "user@example.com" } } } }).1
      = { success := true,
          data := some (.ofTokenData
            { user := some { id := "u1", email := some "user@example.com" },
              session := some { user := { id := "u1", email := some "user@example.com" } } }) } := by
  rfl

/-- Claim C3 (amended): whenever an operation's *primary* auth SDK call
yields an error, the operation never throws and returns `success = false`
with the SDK's message forwarded unchanged; errors of the auxiliary
profile-existence query (and of the ignored sign-out inside
`handleOAuthCallback`) are not forwarded. -/
theorem auth_ops_forward_primary_sdk_error :
    (∀ email password m, handleEmailLogin email password (.err m) =
      ({ success := false, error := some m }, [.sdkCall "auth.signInWithPassword"]))
    ∧ (∀ mode m, handleGoogleOAuth mode { signInWithOAuth := .err m } =
        ({ success := false, error := some m },
         [.storageSet "oauth_mode" mode.asString, .sdkCall "auth.signInWithOAuth",
          .storageRemove "oauth_mode"]))
    ∧ (∀ st c1 c2 so m,
        handleOAuthCallback
          { getSession := .err m, storage := st, check1 := c1, check2 := c2,
            signOut := so } =
          ({ success := false, error := some m }, [.sdkCall "auth.getSession"]))
    ∧ (∀ email password fullName env m,
        (checkProfileExists env.check).1.exists_ = false →
        env.signUp = .err m →
        (handleEmailSignup email password fullName env).1 =
          { success := false, error := some m })
    ∧ (∀ m, handleSignOut (.err m) =
        ({ success := false, error := some m }, [.sdkCall "auth.signOut"]))
    ∧ (∀ email m, resendVerificationEmail email (.err m) =
        ({ success := false, error := some m }, [.sdkCall "auth.resend"])) := by
  refine ⟨fun _ _ _ => rfl, fun _ _ => rfl, fun _ _ _ _ _ => rfl, ?_,
    fun _ => rfl, fun _ _ => rfl⟩
  intro email password fullName env m h hsu
  simp [handleEmailSignup, h, hsu]

/-- Witness for the amended C3 at concrete inputs, including the
`handleEmailSignup` conjunct whose hypotheses (profile absent, `signUp`
errors) are discharged by `rfl`. -/
theorem auth_ops_forward_primary_sdk_error_witness :
    handleEmailLogin "a@example.com" "pw" (.err "Invalid login credentials") =
      ({ success := false, error := some "Invalid login credentials" },
       [.sdkCall "auth.signInWithPassword"])
    ∧ (handleEmailSignup "a@example.com" "pw" "Ann"
        { check := .ok none, signUp := .err "Signup disabled" }).1 =
      { success := false, error := some "Signup disabled" } :=
  ⟨auth_ops_forward_primary_sdk_error.1 "a@example.com" "pw" "Invalid login credentials",
   auth_ops_forward_primary_sdk_error.2.2.2.1 "a@example.com" "pw" "Ann"
     { check := .ok none, signUp := .err "Signup disabled" } "Signup disabled" rfl rfl⟩

theorem storageKeys_append (a b : List Effect) :
    storageKeys (a ++ b) = storageKeys a ++ storageKeys b := by
  simp [storageKeys, List.filterMap_append]

/-- Claim C6 counterexample: when the external sign-out yields an error,
`handleSignOut` returns without removing the `oauth_mode` flag, so
"handleSignOut removes it" does not hold on every path. -/
theorem handleSignOut_error_keeps_oauth_mode :
    Effect.storageRemove "oauth_mode" ∉
      (handleSignOut (.err "Network request failed")).2 := by
  decide

/-- Claim C6 (amended): the only browser-storage key any exported auth
operation ever reads or writes is `oauth_mode`; `handleGoogleOAuth` sets
it to the given mode and removes it on failure, `handleOAuthCallback`
reads and removes it whenever a session is established, and
`handleSignOut` removes it on successful sign-out. -/
theorem auth_ops_storage_frame :
    (∀ mode env k, k ∈ storageKeys (handleGoogleOAuth mode env).2 → k = "oauth_mode")
    ∧ (∀ env k, k ∈ storageKeys (handleOAuthCallback env).2 → k = "oauth_mode")
    ∧ (∀ email password sdk,
        storageKeys (handleEmailLogin email password sdk).2 = [])
    ∧ (∀ email password fullName env,
        storageKeys (handleEmailSignup email password fullName env).2 = [])
    ∧ (∀ sdk k, k ∈ storageKeys (handleSignOut sdk).2 → k = "oauth_mode")
    ∧ (∀ email sdk, storageKeys (resendVerificationEmail email sdk).2 = [])
    ∧ (∀ mode env,
        Effect.storageSet "oauth_mode" mode.asString ∈ (handleGoogleOAuth mode env).2)
    ∧ (∀ mode env, (handleGoogleOAuth mode env).1.success = false →
        Effect.storageRemove "oauth_mode" ∈ (handleGoogleOAuth mode env).2)
    ∧ (∀ env s, env.getSession = .ok (some s) →
        Effect.storageGet "oauth_mode" ∈ (handleOAuthCallback env).2
        ∧ Effect.storageRemove "oauth_mode" ∈ (handleOAuthCallback env).2)
    ∧ Effect.storageRemove "oauth_mode" ∈ (handleSignOut (.ok ())).2 := by
  refine ⟨?_, ?_, ?_, ?_, ?_, ?_, ?_, ?_, ?_, ?_⟩
  · intro mode env k hk
    rcases env with ⟨o⟩
    cases o <;> simpa [handleGoogleOAuth, storageKeys] using hk
  · intro env k hk
    rcases env with ⟨gs, st, c1, c2, so⟩
    cases gs with
    | err m => simp [handleOAuthCallback, storageKeys] at hk
    | thrown m => simpa [handleOAuthCallback, storageKeys] using hk
    | ok s =>
      cases s with
      | none => simp [handleOAuthCallback, storageKeys] at hk
      | some s =>
        unfold handleOAuthCallback at hk
        dsimp only at hk
        split at hk
        · split at hk
          · simpa [storageKeys, checkProfileExists_trace] using hk
          · split at hk <;>
              simpa [storageKeys, checkProfileExists_trace] using hk
        · split at hk
          · split at hk
            · simpa [storageKeys, checkProfileExists_trace] using hk
            · split at hk <;>
                simpa [storageKeys, checkProfileExists_trace] using hk
          · simpa [storageKeys, checkProfileExists_trace] using hk
  · intro email password sdk
    cases sdk <;> rfl
  · intro email password fullName env
    rcases env with ⟨c, su⟩
    unfold handleEmailSignup
    dsimp only
    split
    · rw [checkProfileExists_trace c]; rfl
    · split
      · rw [checkProfileExists_trace c]; rfl
      · rw [checkProfileExists_trace c]; rfl
      · split <;> (rw [checkProfileExists_trace c]; rfl)
  · intro sdk k hk
    cases sdk with
    | ok u => simpa [handleSignOut, storageKeys] using hk
    | err m => simp [handleSignOut, storageKeys] at hk
    | thrown m => simp [handleSignOut, storageKeys] at hk
  · intro email sdk
    cases sdk <;> rfl
  · intro mode env
    rcases env with ⟨o⟩
    cases o <;> simp [handleGoogleOAuth]
  · intro mode env h
    rcases env with ⟨o⟩
    cases o with
    | ok url => simp [handleGoogleOAuth] at h
    | err m => simp [handleGoogleOAuth]
    | thrown m => simp [handleGoogleOAuth]
  · intro env s hs
    rcases env with ⟨gs, st, c1, c2, so⟩
    cases hs
    constructor <;>
      (unfold handleOAuthCallback
       dsimp only
       split
       · split
         · simp [checkProfileExists_trace]
         · split <;> simp [checkProfileExists_trace]
       · split
         · split
           · simp [checkProfileExists_trace]
           · split <;> simp [checkProfileExists_trace]
         · simp [checkProfileExists_trace])
  · decide

/-- Witness for the amended C6: the conditional conjuncts at concrete
environments (a callback with a session, a failed OAuth initiation). -/
theorem auth_ops_storage_frame_witness :
    (Effect.storageGet "oauth_mode" ∈
        (handleOAuthCallback
          { getSession := .ok (some { user := { id := "u4", email := some "c@example.com" } }),
            storage := fun _ => none,
            check1 := .ok none, check2 := .ok none, signOut := .ok () }).2
      ∧ Effect.storageRemove "oauth_mode" ∈
        (handleOAuthCallback
          { getSession := .ok (some { user := { id := "u4", email := some "c@example.com" } }),
            storage := fun _ => none,
            check1 := .ok none, check2 := .ok none, signOut := .ok () }).2)
    ∧ Effect.storageRemove "oauth_mode" ∈
        (handleGoogleOAuth .login { signInWithOAuth := .err "popup blocked" }).2 :=
  ⟨auth_ops_storage_frame.2.2.2.2.2.2.2.2.1 _ _ rfl,
   auth_ops_storage_frame.2.2.2.2.2.2.2.1 .login
     { signInWithOAuth := .err "popup blocked" } rfl⟩

/-- The error condition exactly as the spec sentence words it (for
comparison with `validateEnvironment`): an error is recorded when
`VITE_SUPABASE_URL` is *unset*, when `VITE_SUPABASE_ANON_KEY` is *unset*,
or when `VITE_SUPABASE_URL` is *set* but does not start with
`'https://'`. -/
def claimedEnvErrorCondition (env : ImportMetaEnv) : Bool :=
  env.VITE_SUPABASE_URL.isNone || env.VITE_SUPABASE_ANON_KEY.isNone
    || (env.VITE_SUPABASE_URL.isSome && !urlStartsWithHttps env.VITE_SUPABASE_URL)

/-- Claim C7 counterexample: with `VITE_SUPABASE_URL` set to a valid
`https://` URL and `VITE_SUPABASE_ANON_KEY` *set* to the empty string,
none of the claim's error conditions holds (both variables are set and
the URL starts with `https://`), yet the code records an error for the
falsy key and returns `valid = false`. -/
theorem validateEnvironment_empty_key_invalid :
    claimedEnvErrorCondition
        { VITE_SUPABASE_URL := some "https://example.supabase.co",
          VITE_SUPABASE_ANON_KEY := some "", VITE_FORMSPREE_ENDPOINT := none,
          VITE_GOOGLE_CLIENT_ID := none, VITE_GOOGLE_CLIENT_SECRET := none,
          PROD := false } = false
    ∧ (validateEnvironment
        { VITE_SUPABASE_URL := some "https://example.supabase.co",
          VITE_SUPABASE_ANON_KEY := some "", VITE_FORMSPREE_ENDPOINT := none,
          VITE_GOOGLE_CLIENT_ID := none, VITE_GOOGLE_CLIENT_SECRET := none,
          PROD := false }).valid = false := by
  decide

/-- Claim C7 (amended): `validateEnvironment` returns `valid = true` iff
its errors list is empty, where an error is recorded exactly when
`VITE_SUPABASE_URL` is unset *or empty*, when `VITE_SUPABASE_ANON_KEY` is
unset *or empty*, or when `VITE_SUPABASE_URL` is set to a non-empty value
that does not start with `'https://'`; the `config` field is present
exactly when `valid` is true. -/
theorem validateEnvironment_valid_iff (env : ImportMetaEnv) :
    ((validateEnvironment env).valid = true ↔ (validateEnvironment env).errors = [])
    ∧ ("VITE_SUPABASE_URL is not set in environment variables"
          ∈ (validateEnvironment env).errors
        ↔ falsyEnv env.VITE_SUPABASE_URL = true)
    ∧ ("VITE_SUPABASE_ANON_KEY is not set in environment variables"
          ∈ (validateEnvironment env).errors
        ↔ falsyEnv env.VITE_SUPABASE_ANON_KEY = true)
    ∧ ("VITE_SUPABASE_URL must start with https://"
          ∈ (validateEnvironment env).errors
        ↔ (falsyEnv env.VITE_SUPABASE_URL = false
            ∧ urlStartsWithHttps env.VITE_SUPABASE_URL = false))
    ∧ (∀ e ∈ (validateEnvironment env).errors,
        e = "VITE_SUPABASE_URL is not set in environment variables"
        ∨ e = "VITE_SUPABASE_ANON_KEY is not set in environment variables"
        ∨ e = "VITE_SUPABASE_URL must start with https://")
    ∧ ((validateEnvironment env).config.isSome = true
        ↔ (validateEnvironment env).valid = true) := by
  cases hu : falsyEnv env.VITE_SUPABASE_URL <;>
    cases hk : falsyEnv env.VITE_SUPABASE_ANON_KEY <;>
      cases hh : urlStartsWithHttps env.VITE_SUPABASE_URL <;>
        simp [validateEnvironment, hu, hk, hh]

/-- Witness for the amended C7 at a fully unset environment: no variables
set, so both missing-variable errors are recorded and validation fails. -/
theorem validateEnvironment_valid_iff_witness :
    ((validateEnvironment
        { VITE_SUPABASE_URL := none, VITE_SUPABASE_ANON_KEY := none,
          VITE_FORMSPREE_ENDPOINT := none, VITE_GOOGLE_CLIENT_ID := none,
          VITE_GOOGLE_CLIENT_SECRET := none, PROD := false }).valid = true
      ↔ (validateEnvironment
        { VITE_SUPABASE_URL := none, VITE_SUPABASE_ANON_KEY := none,
          VITE_FORMSPREE_ENDPOINT := none, VITE_GOOGLE_CLIENT_ID := none,
          VITE_GOOGLE_CLIENT_SECRET := none, PROD := false }).errors = [])
    ∧ ("VITE_SUPABASE_URL is not set in environment variables"
          ∈ (validateEnvironment
            { VITE_SUPABASE_URL := none, VITE_SUPABASE_ANON_KEY := none,
              VITE_FORMSPREE_ENDPOINT := none, VITE_GOOGLE_CLIENT_ID := none,
              VITE_GOOGLE_CLIENT_SECRET := none, PROD := false }).errors
        ↔ falsyEnv (none : Option String) = true) :=
  ⟨(validateEnvironment_valid_iff _).1, (validateEnvironment_valid_iff _).2.1⟩

/-! ### Character-level lemmas for the upload path -/

theorem string_data_append (a b : String) : (a ++ b).data = a.data ++ b.data := by
  cases a; cases b; rfl

theorem allowedChar_digitChar (m : Nat) (h : m < 10) :
    allowedChar (Nat.digitChar m) = true := by
  interval_cases m <;> decide

theorem toDigitsCore_allowed (fuel : Nat) :
    ∀ (n : Nat) (ds : List Char), (∀ c ∈ ds, allowedChar c = true) →
      ∀ c ∈ Nat.toDigitsCore 10 fuel n ds, allowedChar c = true := by
  induction fuel with
  | zero =>
    intro n ds hds c hc
    simp only [Nat.toDigitsCore] at hc
    exact hds c hc
  | succ f ih =>
    intro n ds hds c hc
    have hd : allowedChar (Nat.digitChar (n % 10)) = true :=
      allowedChar_digitChar _ (Nat.mod_lt _ (by decide))
    have hcons : ∀ x ∈ (Nat.digitChar (n % 10) :: ds), allowedChar x = true := by
      intro x hx
      rcases List.mem_cons.mp hx with h | h
      · subst h; exact hd
      · exact hds x h
    simp only [Nat.toDigitsCore] at hc
    split at hc
    · exact hcons c hc
    · exact ih (n / 10) (Nat.digitChar (n % 10) :: ds) hcons c hc

/-- Every character of the decimal rendering of a `Nat` (the
`${timestamp}` component of the upload path) lies in `[a-zA-Z0-9_.-]`. -/
theorem natRepr_allowed (n : Nat) : ∀ c ∈ (Nat.repr n).data, allowedChar c = true := by
  intro c hc
  have hdata : (Nat.repr n).data = Nat.toDigits 10 n := rfl
  rw [hdata] at hc
  exact toDigitsCore_allowed (n + 1) n [] (by simp) c hc

/-- Every character of a sanitised file name lies in `[a-zA-Z0-9_.-]`. -/
theorem sanitizeFileName_allowed (name : String) :
    ∀ c ∈ (sanitizeFileName name).data, allowedChar c = true := by
  intro c hc
  have h : (sanitizeFileName name).data
      = name.data.map (fun c => if allowedChar c then c else '_') := rfl
  rw [h, List.mem_map] at hc
  obtain ⟨a, _, rfl⟩ := hc
  by_cases hA : allowedChar a = true
  · rw [if_pos hA]; exact hA
  · rw [if_neg hA]; decide

/-- Claim C8: `uploadCertificationAsset` uploads to the path
`certificationId ++ '/' ++ timestamp ++ '_' ++ sanitized` where
`sanitized` replaces every character outside `[a-zA-Z0-9_.-]` by `'_'`,
and the whole portion of the path after the certification id contains no
character outside that set plus the separating `'/'`. -/
theorem uploadCertificationAsset_path_shape (file : UploadFile)
    (certificationId : String) (timestamp : Nat) (env : UploadEnv) :
    Effect.storageUpload
        (certificationId ++ "/" ++ toString timestamp ++ "_"
          ++ sanitizeFileName file.name)
      ∈ (uploadCertificationAsset file certificationId timestamp env).2
    ∧ ∀ c ∈ ("/" ++ toString timestamp ++ "_" ++ sanitizeFileName file.name).data,
        allowedChar c = true ∨ c = '/' := by
  constructor
  · cases h : env.uploadResult <;> simp [uploadCertificationAsset, h]
  · intro c hc
    simp only [string_data_append, List.mem_append] at hc
    rcases hc with ((h1 | h2) | h3) | h4
    · right
      simpa using h1
    · exact Or.inl (natRepr_allowed timestamp c h2)
    · left
      have hcu : c = '_' := by simpa using h3
      subst hcu
      decide
    · exact Or.inl (sanitizeFileName_allowed file.name c h4)

/-- Witness for C8 at a concrete file whose name contains characters
outside the allowed set (space and parentheses). -/
theorem uploadCertificationAsset_path_shape_witness :
    Effect.storageUpload
        ("cert1" ++ "/" ++ toString (1712 : Nat) ++ "_"
          ++ sanitizeFileName "report 2024(final).pdf")
      ∈ (uploadCertificationAsset
          { name := "report 2024(final).pdf", type := "application/pdf" }
          "cert1" 1712
          { uploadResult := .ok "cert1/1712_report_2024_final_.pdf",
            publicUrlFor := fun p => "https://cdn.example.com/" ++ p }).2
    ∧ ∀ c ∈ ("/" ++ toString (1712 : Nat) ++ "_"
          ++ sanitizeFileName "report 2024(final).pdf").data,
        allowedChar c = true ∨ c = '/' :=
  uploadCertificationAsset_path_shape
    { name := "report 2024(final).pdf", type := "application/pdf" } "cert1" 1712
    { uploadResult := .ok "cert1/1712_report_2024_final_.pdf",
      publicUrlFor := fun p => "https://cdn.example.com/" ++ p }

/-- Claim C9: `uploadCertificationAsset` always returns exactly one of
`url` and `error` as `null`: the error with `url = null` on an upload
error, and the public URL with `error = null` on success. -/
theorem uploadCertificationAsset_result_shape (file : UploadFile)
    (certificationId : String) (timestamp : Nat) (env : UploadEnv) :
    ((uploadCertificationAsset file certificationId timestamp env).1.url = none
      ↔ (uploadCertificationAsset file certificationId timestamp env).1.error ≠ none)
    ∧ (∀ m, env.uploadResult = .err m →
        (uploadCertificationAsset file certificationId timestamp env).1
          = { url := none, error := some m })
    ∧ (∀ p, env.uploadResult = .ok p →
        (uploadCertificationAsset file certificationId timestamp env).1
          = { url := some (env.publicUrlFor p), error := none }) := by
  rcases env with ⟨r, pu⟩
  cases r with
  | ok p0 =>
    refine ⟨by simp [uploadCertificationAsset], ?_, ?_⟩
    · intro m hm
      cases hm
    · intro p hp
      injection hp with h
      subst h
      rfl
  | err m0 =>
    refine ⟨by simp [uploadCertificationAsset], ?_, ?_⟩
    · intro m hm
      injection hm with h
      subst h
      rfl
    · intro p hp
      cases hp

/-- Witness for C9 at a concrete failing and a concrete succeeding
environment (via the error and success conjuncts respectively). -/
theorem uploadCertificationAsset_result_shape_witness :
    (uploadCertificationAsset { name := "a.png", type := "image/png" } "c1" 7
        { uploadResult := .err "Bucket not found",
          publicUrlFor := fun p => "https://cdn.example.com/" ++ p }).1
      = { url := none, error := some "Bucket not found" }
    ∧ (uploadCertificationAsset { name := "a.png", type := "image/png" } "c1" 7
        { uploadResult := .ok "c1/7_a.png",
          publicUrlFor := fun p => "https://cdn.example.com/" ++ p }).1
      = { url := some ("https://cdn.example.com/" ++ "c1/7_a.png"), error := none } :=
  ⟨(uploadCertificationAsset_result_shape _ "c1" 7 _).2.1 "Bucket not found" rfl,
   (uploadCertificationAsset_result_shape _ "c1" 7 _).2.2 "c1/7_a.png" rfl⟩

/-- Claim C10: whenever the hook's `loaded` state is false,
`executeRecaptcha` throws `'reCAPTCHA not loaded yet'` and never invokes
the external `grecaptcha.execute` call. -/
theorem executeRecaptcha_not_loaded (siteKey action : String)
    (env : RecaptchaEnv) (h : env.loaded = false) :
    executeRecaptcha siteKey action env
      = (.error "reCAPTCHA not loaded yet", [])
    ∧ Effect.sdkCall "grecaptcha.execute" ∉
        (executeRecaptcha siteKey action env).2 := by
  have he : executeRecaptcha siteKey action env
      = (.error "reCAPTCHA not loaded yet", []) := by
    simp [executeRecaptcha, h]
  refine ⟨he, ?_⟩
  rw [he]
  simp

/-- Witness for C10 at a concrete not-yet-loaded hook state (even with
`grecaptcha` present and a would-be-successful execute). -/
theorem executeRecaptcha_not_loaded_witness :
    executeRecaptcha "site-key" "login"
        { loaded := false, grecaptchaAvailable := true, execute := .ok "token" }
      = (.error "reCAPTCHA not loaded yet", [])
    ∧ Effect.sdkCall "grecaptcha.execute" ∉
        (executeRecaptcha "site-key" "login"
          { loaded := false, grecaptchaAvailable := true, execute := .ok "token" }).2 :=
  executeRecaptcha_not_loaded "site-key" "login" _ rfl

end Certifree
